import Mathlib

/-!
Verification of the portfolio backend's data-access layer (`database.py`),
its HTTP request handlers (`portfolio_routes.py`) and the seeding routine
(`seed_data.py`) against the natural-language specification.

The document store is modelled shallowly: a BSON-like `Value` type, documents
as insertion-ordered association lists (Python dicts preserve insertion
order, MongoDB documents preserve field order), and the five collections as
lists of documents in insertion (natural) order.  Store faults are modelled
by a boolean `fault` parameter on every gateway operation: `fault = true`
means the underlying store command raised, which the Python code catches
with `except Exception` and converts to the operation's documented default.
Each call to `datetime.utcnow()` is a separate explicit time parameter (the
source reads the clock independently at each call site).
-/

namespace PortfolioApi

mutual
/-- BSON-like values stored in documents.  Floating-point literals occurring
in the seed data (`4.2`, `15.2`) carry exactly one decimal digit and are
represented exactly by their value in tenths (`vFloat 42` is `4.2`); no
operation of the source computes with them.  `vId` is a MongoDB ObjectId,
`vTime` a datetime. -/
inductive Value where
  | vStr (s : String)
  | vInt (n : Int)
  | vFloat (tenths : Int)
  | vBool (b : Bool)
  | vTime (t : Nat)
  | vId (n : Nat)
  | vNull
  | vArr (vs : ValueList)
  | vDoc (fs : FieldList)
deriving DecidableEq, Repr

/-- Array payload of a `Value.vArr` (a nested list of values). -/
inductive ValueList where
  | nil
  | cons (v : Value) (vs : ValueList)
deriving DecidableEq, Repr

/-- Field payload of a `Value.vDoc` (a nested document). -/
inductive FieldList where
  | nil
  | cons (k : String) (v : Value) (fs : FieldList)
deriving DecidableEq, Repr
end

/-- A top-level document: an insertion-ordered association list of fields. -/
abbrev Doc := List (String × Value)

/-- Convert a Lean list of values into a nested BSON array payload. -/
def toValueList : List Value → ValueList
  | [] => .nil
  | v :: vs => .cons v (toValueList vs)

/-- Convert a Lean association list into a nested BSON document payload. -/
def toFieldList : List (String × Value) → FieldList
  | [] => .nil
  | (k, v) :: fs => .cons k v (toFieldList fs)

/-- Nested array literal helper. -/
def varr (l : List Value) : Value := .vArr (toValueList l)

/-- Nested document literal helper. -/
def vdoc (l : List (String × Value)) : Value := .vDoc (toFieldList l)

/-- Nested array of strings (the common shape in the seed data). -/
def vstrs (l : List String) : Value := varr (l.map .vStr)

/-- Python `d.get(k)` / Mongo field access: value of the first field named
`k`, if any. -/
def getKey : Doc → String → Option Value
  | [], _ => none
  | (k', v) :: rest, k => if k' = k then some v else getKey rest k

/-- Python `d[k] = v`: replace the first field named `k` in place, or append
the field if the key is absent (insertion-order semantics of dicts, and of
Mongo `$set` on a document). -/
def setKey : Doc → String → Value → Doc
  | [], k, v => [(k, v)]
  | (k', v') :: rest, k, v =>
      if k' = k then (k, v) :: rest else (k', v') :: setKey rest k v

/-- Mongo `$set` with update document `patch`: set every field of `patch`
in order. -/
def applySet (d : Doc) (patch : Doc) : Doc :=
  patch.foldl (fun acc kv => setKey acc kv.1 kv.2) d

/-- Python `str()` on the values that occur as `_id` (always an ObjectId for
stored documents; the string form of `vId n` is the decimal numeral). -/
def pyStr : Value → String
  | .vId n => toString n
  | .vStr s => s
  | _ => ""

/-- The string form of the ObjectId assigned at insertion `n`
(`str(result.inserted_id)` in the source). -/
def oidStr (n : Nat) : String := toString n

/-- Python truthiness of a value (used by `page["_id"] or "/"`). -/
def Value.truthy : Value → Bool
  | .vStr s => s ≠ ""
  | .vInt n => n ≠ 0
  | .vFloat m => m ≠ 0
  | .vBool b => b
  | .vTime _ => true
  | .vId _ => true
  | .vNull => false
  | .vArr vs => vs ≠ .nil
  | .vDoc fs => fs ≠ .nil

/-- Python `x or y` on values. -/
def pyOr (x y : Value) : Value := if x.truthy then x else y

/-- Python truthiness of a `find_one` result: `None` and the empty document
are falsy, any other document is truthy. -/
def pyTruthy : Option Doc → Bool
  | none => false
  | some d => d ≠ []

/-- Mongo `update_one`: apply `f` to the first document satisfying `p`, leave the
rest unchanged. -/
def updateFirst (p : Doc → Bool) (f : Doc → Doc) : List Doc → List Doc
  | [] => []
  | d :: rest => if p d then f d :: rest else d :: updateFirst p f rest

/-- Mongo `delete_one`: remove the first document satisfying `p`. -/
def deleteFirst (p : Doc → Bool) : List Doc → List Doc
  | [] => []
  | d :: rest => if p d then rest else d :: deleteFirst p rest

/-- The database: one collection per entity type, in natural (insertion)
order, plus the next fresh ObjectId. -/
structure Store where
  profile : List Doc
  projects : List Doc
  contact_messages : List Doc
  analytics : List Doc
  visualizations : List Doc
  nextId : Nat
deriving DecidableEq, Repr

/-- A store with empty collections (a fresh deployment). -/
def emptyStore : Store := ⟨[], [], [], [], [], 0⟩

/-- Comparison of extracted sort keys, mirroring Mongo's ascending sort on a
field all of whose present values are numeric: a document missing the field
(key `none`) sorts before every document carrying one. -/
def cmpKey : Option Int → Option Int → Prop
  | none, _ => True
  | some _, none => False
  | some i, some j => i ≤ j

instance : ∀ x y : Option Int, Decidable (cmpKey x y)
  | none, _ => isTrue trivial
  | some _, none => isFalse id
  | some i, some j => inferInstanceAs (Decidable (i ≤ j))

theorem cmpKey_total : ∀ x y : Option Int, cmpKey x y ∨ cmpKey y x
  | none, _ => Or.inl trivial
  | some _, none => Or.inr trivial
  | some i, some j => (Int.le_total i j).imp id id

theorem cmpKey_trans : ∀ {x y z : Option Int}, cmpKey x y → cmpKey y z → cmpKey x z
  | none, _, _, _, _ => trivial
  | some _, some _, some _, h1, h2 => Int.le_trans h1 h2

/-- Sort key of the `display_order` field. -/
def dispKey (d : Doc) : Option Int :=
  match getKey d "display_order" with
  | some (.vInt n) => some n
  | _ => none

/-- Sort key of the `timestamp` field. -/
def tsKey (d : Doc) : Option Int :=
  match getKey d "timestamp" with
  | some (.vTime t) => some (t : Int)
  | _ => none

/-- Sort key of the `created_at` field. -/
def createdKey (d : Doc) : Option Int :=
  match getKey d "created_at" with
  | some (.vTime t) => some (t : Int)
  | _ => none

/-- Ascending order on `display_order` (`.sort("display_order", 1)`). -/
def dispLe (a b : Doc) : Prop := cmpKey (dispKey a) (dispKey b)

/-- Descending order on `timestamp` (`.sort("timestamp", -1)`). -/
def tsGe (a b : Doc) : Prop := cmpKey (tsKey b) (tsKey a)

/-- Descending order on `created_at` (`.sort("created_at", -1)`). -/
def createdGe (a b : Doc) : Prop := cmpKey (createdKey b) (createdKey a)

instance : DecidableRel dispLe := fun _ _ => inferInstanceAs (Decidable (cmpKey _ _))
instance : DecidableRel tsGe := fun _ _ => inferInstanceAs (Decidable (cmpKey _ _))
instance : DecidableRel createdGe := fun _ _ => inferInstanceAs (Decidable (cmpKey _ _))

instance : IsTotal Doc dispLe := ⟨fun a b => cmpKey_total (dispKey a) (dispKey b)⟩
instance : IsTrans Doc dispLe := ⟨fun _ _ _ => cmpKey_trans⟩
instance : IsTotal Doc tsGe := ⟨fun a b => (cmpKey_total (tsKey a) (tsKey b)).symm⟩
instance : IsTrans Doc tsGe := ⟨fun _ _ _ h1 h2 => cmpKey_trans h2 h1⟩
instance : IsTotal Doc createdGe := ⟨fun a b => (cmpKey_total (createdKey a) (createdKey b)).symm⟩
instance : IsTrans Doc createdGe := ⟨fun _ _ _ h1 h2 => cmpKey_trans h2 h1⟩

/-- Models `str(ObjectId)` applied to a document's `_id` field as done inside every
read loop (`doc['_id'] = str(doc['_id'])`); a document without `_id` raises
`KeyError`, so the fallible version below returns `none` for it. -/
def sid (d : Doc) : Doc :=
  match getKey d "_id" with
  | some v => setKey d "_id" (.vStr (pyStr v))
  | none => d

/-- Runs `doc['_id'] = str(doc['_id'])` over a cursor's documents; `none`
models the `KeyError` raised on a document lacking `_id` (the surrounding
`except` then yields the read's default). -/
def stringifyAll : List Doc → Option (List Doc)
  | [] => some []
  | d :: rest =>
      match getKey d "_id" with
      | none => none
      | some v => (stringifyAll rest).map (fun r => setKey d "_id" (.vStr (pyStr v)) :: r)

namespace DatabaseManager

/-- Gateway `get_profile` (`database.py` lines 18-27): `find_one({})` on the profile
collection; `if profile:` guards the `_id` stringification (an empty
document is falsy); any fault yields `None`. -/
def get_profile (s : Store) (fault : Bool) : Option Doc :=
  if fault then none
  else
    match s.profile.head? with
    | none => none
    | some p =>
        if p = [] then some p
        else
          match getKey p "_id" with
          | some v => some (setKey p "_id" (.vStr (pyStr v)))
          | none => none

/-- The insert branch of `create_or_update_profile` (`database.py` lines
41-44): stamp `created_at` with a second clock read and insert. -/
def insertNewProfile (s : Store) (t2 : Nat) (pd : Doc) : Bool × Store :=
  let pd2 := setKey pd "created_at" (.vTime t2)
  (true, { s with profile := s.profile ++ [setKey pd2 "_id" (.vId s.nextId)],
                  nextId := s.nextId + 1 })

/-- Gateway `create_or_update_profile` (`database.py` lines 29-49): stamp
`updated_at` with the first clock read, then `find_one({})`; if a (truthy)
profile exists, `update_one` it with `$set`, otherwise stamp `created_at`
with a second clock read and insert.  Faults yield `false`. -/
def create_or_update_profile (s : Store) (fault : Bool) (t1 t2 : Nat)
    (profile_data : Doc) : Bool × Store :=
  if fault then (false, s)
  else
    let pd := setKey profile_data "updated_at" (.vTime t1)
    match s.profile.head? with
    | some existing =>
        if existing = [] then insertNewProfile s t2 pd
        else
          let matched : Doc → Bool := fun d => decide (getKey d "_id" = getKey existing "_id")
          (true, { s with profile := updateFirst matched (fun d => applySet d pd) s.profile })
    | none => insertNewProfile s t2 pd

/-- The query dict built by `get_projects`: `query = {}` then
`if project_type: query["type"] = project_type` — the guard is Python
truthiness, so both `None` and the empty string leave the query empty. -/
def projectQuery : Option String → Doc
  | some ty => if ty = "" then [] else [("type", .vStr ty)]
  | none => []

/-- Mongo `find(query)` equality matching: a document matches when every
field of the query dict equals the document's value at that key. -/
def matchesQuery (query : Doc) (d : Doc) : Bool :=
  query.all (fun kv => decide (getKey d kv.1 = some kv.2))

/-- Gateway `get_projects` (`database.py` lines 52-67): build the query dict,
filter, sort ascending by `display_order`, stringify each `_id`; any fault
yields `[]`. -/
def get_projects (s : Store) (fault : Bool) (project_type : Option String) : List Doc :=
  if fault then []
  else
    match stringifyAll (List.insertionSort dispLe
        (s.projects.filter (matchesQuery (projectQuery project_type)))) with
    | some r => r
    | none => []

/-- Gateway `create_project` (`database.py` lines 69-79): stamp `created_at` and
`updated_at` with two successive clock reads, insert, return the new id as a
string; faults yield `None`. -/
def create_project (s : Store) (fault : Bool) (t1 t2 : Nat) (project_data : Doc) :
    Option String × Store :=
  if fault then (none, s)
  else
    let pd := setKey (setKey project_data "created_at" (.vTime t1)) "updated_at" (.vTime t2)
    (some (oidStr s.nextId),
     { s with projects := s.projects ++ [setKey pd "_id" (.vId s.nextId)],
              nextId := s.nextId + 1 })

/-- Gateway `update_project` (`database.py` lines 81-94): stamp `updated_at`, then
`update_one` by `_id` with `$set`; the result is `modified_count > 0`, and
Mongo counts a document as modified only when the `$set` actually changed
it.  Faults (including a malformed ObjectId string) yield `false`. -/
def update_project (s : Store) (fault : Bool) (t : Nat) (project_id : Nat)
    (project_data : Doc) : Bool × Store :=
  if fault then (false, s)
  else
    let pd := setKey project_data "updated_at" (.vTime t)
    let matched : Doc → Bool := fun d => decide (getKey d "_id" = some (.vId project_id))
    match s.projects.find? matched with
    | none => (false, s)
    | some doc =>
        (decide (applySet doc pd ≠ doc),
         { s with projects := updateFirst matched (fun d => applySet d pd) s.projects })

/-- Gateway `delete_project` (`database.py` lines 96-104): `delete_one` by `_id`;
the result is `deleted_count > 0`.  Faults yield `false`. -/
def delete_project (s : Store) (fault : Bool) (project_id : Nat) : Bool × Store :=
  if fault then (false, s)
  else
    let matched : Doc → Bool := fun d => decide (getKey d "_id" = some (.vId project_id))
    match s.projects.find? matched with
    | none => (false, s)
    | some _ => (true, { s with projects := deleteFirst matched s.projects })

/-- Gateway `create_contact_message` (`database.py` lines 107-117): stamp
`created_at = now`, force `is_read = False` regardless of the input, insert,
return the new id as a string; faults yield `None`. -/
def create_contact_message (s : Store) (fault : Bool) (t : Nat) (message_data : Doc) :
    Option String × Store :=
  if fault then (none, s)
  else
    let md := setKey (setKey message_data "created_at" (.vTime t)) "is_read" (.vBool false)
    (some (oidStr s.nextId),
     { s with contact_messages := s.contact_messages ++ [setKey md "_id" (.vId s.nextId)],
              nextId := s.nextId + 1 })

/-- Gateway `get_contact_messages` (`database.py` lines 119-130): all messages sorted
descending by `created_at`, `_id` stringified; faults yield `[]`. -/
def get_contact_messages (s : Store) (fault : Bool) : List Doc :=
  if fault then []
  else
    match stringifyAll (List.insertionSort createdGe s.contact_messages) with
    | some r => r
    | none => []

/-- Gateway `create_analytics_event` (`database.py` lines 146-154): stamp
`timestamp = now` and insert; faults yield `false`. -/
def create_analytics_event (s : Store) (fault : Bool) (t : Nat) (event_data : Doc) :
    Bool × Store :=
  if fault then (false, s)
  else
    let ed := setKey event_data "timestamp" (.vTime t)
    (true, { s with analytics := s.analytics ++ [setKey ed "_id" (.vId s.nextId)],
                    nextId := s.nextId + 1 })

end DatabaseManager

/-- One reduced entry of `recent_visits`:
`{"page": visit.get("page", "/"), "timestamp": visit["timestamp"],
"ip_address": visit.get("ip_address", "unknown")}`. -/
structure RecentVisit where
  page : Value
  timestamp : Value
  ip_address : Value
deriving DecidableEq, Repr

/-- One entry of `top_pages`: `{"page": page["_id"] or "/",
"visits": page["count"]}`. -/
structure TopPage where
  page : Value
  visits : Nat
deriving DecidableEq, Repr

/-- The analytics aggregate returned by `get_analytics_stats`. -/
structure AnalyticsStats where
  total_visits : Nat
  total_downloads : Nat
  total_contacts : Nat
  recent_visits : List RecentVisit
  top_pages : List TopPage
deriving DecidableEq, Repr

/-- The all-zero/empty aggregate returned from the `except` branch of
`get_analytics_stats` (`database.py` lines 198-204). -/
def emptyStats : AnalyticsStats := ⟨0, 0, 0, [], []⟩

/-- The loop over the recent-visits cursor: each document is reduced to
page / timestamp / IP with defaults for the two `dict.get` calls;
`visit["timestamp"]` raises `KeyError` when the field is missing, modelled
by `none` (the surrounding `except` then yields the zeroed aggregate). -/
def buildRecent : List Doc → Option (List RecentVisit)
  | [] => some []
  | d :: rest =>
      match getKey d "timestamp" with
      | none => none
      | some ts =>
          (buildRecent rest).map
            (fun l => ⟨(getKey d "page").getD (.vStr "/"), ts,
                       (getKey d "ip_address").getD (.vStr "unknown")⟩ :: l)

/-- The `$group` key `"$page"`: a missing field groups together with an
explicit null. -/
def pageKey (d : Doc) : Value := (getKey d "page").getD .vNull

/-- Number of visit documents in `visits` grouped under page key `k`
(the `{"$sum": 1}` accumulator). -/
def countPage (visits : List Doc) (k : Value) : Nat :=
  (visits.filter (fun d => decide (pageKey d = k))).length

/-- Descending order on the `count` of a `$group` result
(`{"$sort": {"count": -1}}`). -/
def cntGe (a b : Value × Nat) : Prop := b.2 ≤ a.2

instance : DecidableRel cntGe := fun a b => inferInstanceAs (Decidable (b.2 ≤ a.2))
instance : IsTotal (Value × Nat) cntGe := ⟨fun a b => (Nat.le_total b.2 a.2).imp id id⟩
instance : IsTrans (Value × Nat) cntGe := ⟨fun _ _ _ h1 h2 => Nat.le_trans h2 h1⟩

/-- The visit documents: `count_documents({"event_type": "visit"})` and the
`$match` stage both select exactly these. -/
def visitsOf (s : Store) : List Doc :=
  s.analytics.filter (fun d => decide (getKey d "event_type" = some (.vStr "visit")))

/-- The download documents
(`count_documents({"event_type": "download"})`). -/
def downloadsOf (s : Store) : List Doc :=
  s.analytics.filter (fun d => decide (getKey d "event_type" = some (.vStr "download")))

/-- The `$group` stage: one `(page key, count)` pair per distinct page key
of the visit documents. -/
def pageGroups (visits : List Doc) : List (Value × Nat) :=
  ((visits.map pageKey).dedup).map (fun k => (k, countPage visits k))

namespace DatabaseManager

/-- Gateway `get_analytics_stats` (`database.py` lines 156-204): total visit /
download / contact counts, the 10 most recent visit events reduced to
page / timestamp / IP, and the top 5 pages by visit count with falsy page
keys normalized to "/".  Any fault yields the all-zero aggregate. -/
def get_analytics_stats (s : Store) (fault : Bool) : AnalyticsStats :=
  if fault then emptyStats
  else
    match buildRecent ((List.insertionSort tsGe (visitsOf s)).take 10) with
    | none => emptyStats
    | some recent =>
        { total_visits := (visitsOf s).length,
          total_downloads := (downloadsOf s).length,
          total_contacts := s.contact_messages.length,
          recent_visits := recent,
          top_pages := ((List.insertionSort cntGe (pageGroups (visitsOf s))).take 5).map
            (fun g => TopPage.mk (pyOr g.1 (.vStr "/")) g.2) }

/-- Gateway `get_visualizations` (`database.py` lines 207-218): documents with
`is_active = true`, ascending by `display_order`, `_id` stringified; faults
yield `[]`. -/
def get_visualizations (s : Store) (fault : Bool) : List Doc :=
  if fault then []
  else
    let matchesQ : Doc → Bool := fun d => decide (getKey d "is_active" = some (.vBool true))
    match stringifyAll (List.insertionSort dispLe (s.visualizations.filter matchesQ)) with
    | some r => r
    | none => []

/-- Gateway `create_visualization` (`database.py` lines 220-230): stamp the two
timestamps with successive clock reads and insert; faults yield `None`. -/
def create_visualization (s : Store) (fault : Bool) (t1 t2 : Nat) (viz_data : Doc) :
    Option String × Store :=
  if fault then (none, s)
  else
    let vd := setKey (setKey viz_data "created_at" (.vTime t1)) "updated_at" (.vTime t2)
    (some (oidStr s.nextId),
     { s with visualizations := s.visualizations ++ [setKey vd "_id" (.vId s.nextId)],
              nextId := s.nextId + 1 })

end DatabaseManager

/-- The `APIResponse` envelope (`models.py`): `{success, message, data?}`. -/
structure APIResponse where
  success : Bool
  message : String
  data : Option Value
deriving DecidableEq, Repr

/-- A FastAPI `HTTPException` as raised by the handlers. -/
structure HTTPException where
  status_code : Nat
  detail : String
deriving DecidableEq, Repr

/-- The HTTP outcome of a handler: a 200 body, or an error status. -/
inductive HTTPResult where
  | ok (body : APIResponse)
  | httpError (status_code : Nat) (detail : String)
deriving DecidableEq, Repr

/-- The `try ... except Exception` wrapper shared by every handler in
`portfolio_routes.py`: any exception escaping the `try` block — including an
`HTTPException` the block itself raised, since `HTTPException` derives from
`Exception` — is caught, logged, and replaced by
`HTTPException(500, "Internal server error")`. -/
def routeTry (body : Except HTTPException APIResponse) : HTTPResult :=
  match body with
  | .ok r => .ok r
  | .error _ => .httpError 500 "Internal server error"

namespace Routes

/-- Handler for `PUT /profile` (`portfolio_routes.py` lines 58-71).  The handler passes
`profile.dict()` — a full `Profile` dump, which always includes `id`,
`created_at` and `updated_at` fields — to the gateway; `profile_doc` is that
dump. -/
def update_profile (s : Store) (fault : Bool) (t1 t2 : Nat) (profile_doc : Doc) :
    HTTPResult × Store :=
  let r := DatabaseManager.create_or_update_profile s fault t1 t2 profile_doc
  (routeTry (if r.1 then .ok ⟨true, "Profile updated successfully", none⟩
             else .error ⟨500, "Failed to update profile"⟩),
   r.2)

/-- Handler for `PUT /projects/{project_id}` (`portfolio_routes.py` lines 104-117).
`project_doc` is `project.dict(exclude_unset=True)` — only the fields the
client supplied.  On `success = False` the block raises
`HTTPException(404, "Project not found")` — inside the `try`. -/
def update_project (s : Store) (fault : Bool) (t : Nat) (project_id : Nat)
    (project_doc : Doc) : HTTPResult × Store :=
  let r := DatabaseManager.update_project s fault t project_id project_doc
  (routeTry (if r.1 then .ok ⟨true, "Project updated successfully", none⟩
             else .error ⟨404, "Project not found"⟩),
   r.2)

/-- Handler for `DELETE /projects/{project_id}` (`portfolio_routes.py` lines 119-132).
On `success = False` the block raises `HTTPException(404, "Project not
found")` — inside the `try`. -/
def delete_project (s : Store) (fault : Bool) (project_id : Nat) :
    HTTPResult × Store :=
  let r := DatabaseManager.delete_project s fault project_id
  (routeTry (if r.1 then .ok ⟨true, "Project deleted successfully", none⟩
             else .error ⟨404, "Project not found"⟩),
   r.2)

/-- Handler for `POST /contact` (`portfolio_routes.py` lines 135-166): add the request's
IP and user agent to the validated contact data, store the message, log a
"contact" analytics event, and answer with the new message id. -/
def submit_contact_form (s : Store) (fault1 fault2 : Bool) (t1 t2 : Nat)
    (contact : Doc) (ip ua : String) : HTTPResult × Store :=
  let contact_data := setKey (setKey contact "ip_address" (.vStr ip)) "user_agent" (.vStr ua)
  let r := DatabaseManager.create_contact_message s fault1 t1 contact_data
  match r.1 with
  | some mid =>
      let r2 := DatabaseManager.create_analytics_event r.2 fault2 t2
        [("event_type", .vStr "contact"), ("page", .vStr "contact"),
         ("ip_address", .vStr ip), ("user_agent", .vStr ua)]
      (routeTry (.ok ⟨true, "Message sent successfully! I\x27ll get back to you within 24 hours.",
                      some (vdoc [("message_id", .vStr mid)])⟩),
       r2.2)
  | none => (routeTry (.error ⟨500, "Failed to send message"⟩), r.2)

/-- Handler for `GET /contact` (`portfolio_routes.py` lines 168-177): the stored
messages, newest first. -/
def get_contact_messages (s : Store) (fault : Bool) : List Doc :=
  DatabaseManager.get_contact_messages s fault

end Routes

namespace Seed

/-- The hardcoded `profile_data` literal of `seed_data.py` (lines 16-119). -/
def profile_data : Doc := [
  ("personal", vdoc [
    ("name", .vStr "Venkata Keerthana Madisetty"),
    ("title", .vStr "Business Data Analyst"),
    ("location", .vStr "Arlington, VA"),
    ("email", .vStr "keerthanamadisetty2@gmail.com"),
    ("phone", .vStr "(202) 681-9470"),
    ("linkedin", .vStr "https://www.linkedin.com/in/keerthana-madisetty-60a10b214"),
    ("summary", .vStr "Experienced Business Data Analyst with 3+ years of expertise in analyzing complex datasets, developing predictive models, and delivering actionable insights. Specialized in fraud detection, claims automation, and regulatory reporting with proven track record of improving operational efficiency by 33% and fraud detection accuracy by 22%."),
    ("current_role", .vStr "Business Data Analyst at Liberty Mutual Insurance")]),
  ("skills", vdoc [
    ("programming", vstrs [
      "Python (Pandas, NumPy, Scikit-learn, Matplotlib)",
      "R (Statistical Analysis)",
      "SQL (Complex Joins, CTEs, Window Functions)",
      "DAX (Power BI)"]),
    ("data_visualization", vstrs [
      "Power BI (Advanced Dashboards, RLS, Power Query)",
      "Tableau (Desktop & Server)",
      "SAP BusinessObjects",
      "Excel (Pivot Tables, Power Query, VBA)"]),
    ("cloud_technologies", vstrs [
      "AWS (S3, Glue, Redshift, SageMaker)",
      "Azure (Data Lake, Data Factory, Synapse Analytics, ML Studio)",
      "ETL Processes & Data Pipelines",
      "Data Warehousing"]),
    ("machine_learning", vstrs [
      "Predictive Modeling",
      "Fraud Detection Algorithms",
      "Risk Scoring Models",
      "Statistical Analysis & Hypothesis Testing"]),
    ("business_intelligence", vstrs [
      "KPI Development & Framework Design",
      "Regulatory Compliance Reporting (IRDA, RBI)",
      "Cross-functional Stakeholder Management",
      "Agile Methodologies (JIRA, Confluence)"])]),
  ("experience", varr [
    vdoc [
      ("company", .vStr "Liberty Mutual Insurance"),
      ("position", .vStr "Business Data Analyst"),
      ("duration", .vStr "Apr 2025 - Present"),
      ("location", .vStr "USA"),
      ("achievements", vstrs [
        "Delivered Liberty Claims360 analytics platform, partnering with stakeholders to define reporting requirements",
        "Improved fraud detection efficiency by 22% using predictive analytics with Python and AWS SageMaker",
        "Accelerated claims settlement by 33% through optimized data pipeline using AWS Glue, Power BI, and SQL",
        "Enhanced insights visibility by 40% with Power BI dashboards integrated with AWS Redshift",
        "Extracted and consolidated data using SQL and Excel, leveraging AWS S3 and Glue for data processing"]),
      ("technologies", vstrs ["AWS (S3, Glue, Redshift, SageMaker)", "Power BI", "Python", "SQL", "Excel"])],
    vdoc [
      ("company", .vStr "Hexaware Technologies"),
      ("position", .vStr "Jr. Business Data Analyst"),
      ("duration", .vStr "Feb 2021 - Jul 2023"),
      ("location", .vStr "India"),
      ("achievements", vstrs [
        "Improved loan risk assessment accuracy by 23% through predictive risk scoring models using Python and Azure ML",
        "Automated regulatory reporting using SAP BusinessObjects, ensuring IRDA and RBI compliance",
        "Built interactive dashboards in Power BI and Tableau integrated with Azure Synapse Analytics",
        "Collaborated with stakeholders using JIRA and Confluence to translate requirements into actionable user stories",
        "Optimized claims settlement processes and refined loan eligibility rules through customer behavior analysis"]),
      ("technologies", vstrs ["Azure (Data Lake, Data Factory, Synapse)", "Python", "Power BI", "Tableau", "SAP BusinessObjects"])]]),
  ("education", varr [
    vdoc [
      ("degree", .vStr "Master of Science in Data Science"),
      ("institution", .vStr "George Washington University"),
      ("location", .vStr "Washington DC, USA"),
      ("duration", .vStr "Graduated May 2025"),
      ("relevant_courses", vstrs ["Machine Learning", "Statistical Methods", "Data Mining", "Big Data Analytics", "Business Intelligence"])],
    vdoc [
      ("degree", .vStr "Bachelor of Technology in Computer Science"),
      ("institution", .vStr "MVJ College of Engineering"),
      ("location", .vStr "Bangalore, India"),
      ("duration", .vStr "Graduated May 2022"),
      ("relevant_courses", vstrs ["Database Management Systems", "Data Structures", "Algorithms", "Software Engineering"])]]),
  ("certifications", varr [
    vdoc [
      ("name", .vStr "Salesforce Certified: Tableau Desktop Foundations"),
      ("issuer", .vStr "Salesforce"),
      ("year", .vStr "2024"),
      ("credential_id", .vStr "TDF-2024-001")],
    vdoc [
      ("name", .vStr "AWS Certified Cloud Practitioner"),
      ("issuer", .vStr "Amazon Web Services"),
      ("year", .vStr "2023"),
      ("credential_id", .vStr "AWS-CCP-2023-001")]])]

/-- The hardcoded `projects_data` literal of `seed_data.py` (lines 128-189). -/
def projects_data : List Doc := [
  [("title", .vStr "Claims360 Analytics Platform"),
   ("company", .vStr "Liberty Mutual Insurance"),
   ("type", .vStr "Professional Project"),
   ("description", .vStr "End-to-end analytics platform for claims intelligence, fraud detection, and process automation"),
   ("impact", vstrs [
     "22% improvement in fraud detection efficiency",
     "33% reduction in claims settlement cycle time",
     "40% increase in insights visibility for stakeholders"]),
   ("technologies", vstrs ["AWS (S3, Glue, Redshift, SageMaker)", "Python", "Power BI", "SQL"]),
   ("details", .vStr "Designed and implemented comprehensive analytics solution including automated ETL pipelines, predictive fraud detection models, and real-time interactive dashboards for claims performance monitoring."),
   ("featured", .vBool true),
   ("display_order", .vInt 1)],
  [("title", .vStr "Unified Claims & Credit Risk Analytics"),
   ("company", .vStr "Hexaware Technologies"),
   ("type", .vStr "Professional Project"),
   ("description", .vStr "Centralized Azure-based analytics platform for financial services client"),
   ("impact", vstrs [
     "23% improvement in loan risk assessment accuracy",
     "Automated IRDA and RBI regulatory compliance reporting",
     "Streamlined credit risk evaluation processes"]),
   ("technologies", vstrs ["Azure (Data Factory, Synapse Analytics, ML Studio)", "Python", "Power BI", "Tableau"]),
   ("details", .vStr "Built integrated analytics solution with automated data pipelines, predictive risk scoring models, and comprehensive regulatory reporting capabilities."),
   ("featured", .vBool true),
   ("display_order", .vInt 2)],
  [("title", .vStr "Customer Churn Prediction Model"),
   ("company", .vStr "George Washington University"),
   ("type", .vStr "Academic Project"),
   ("description", .vStr "Machine learning model to predict customer churn for subscription-based business"),
   ("impact", vstrs [
     "Achieved 85% accuracy in churn prediction",
     "Identified top 5 factors contributing to customer churn",
     "Developed actionable retention strategies"]),
   ("technologies", vstrs ["Python", "Scikit-learn", "Pandas", "Matplotlib", "Jupyter"]),
   ("details", .vStr "Developed end-to-end ML pipeline including data preprocessing, feature engineering, model selection, and performance evaluation using various algorithms including Random Forest and Logistic Regression."),
   ("featured", .vBool true),
   ("display_order", .vInt 3)],
  [("title", .vStr "Healthcare Analytics Dashboard"),
   ("company", .vStr "George Washington University"),
   ("type", .vStr "Academic Project"),
   ("description", .vStr "Interactive dashboard analyzing healthcare utilization patterns and patient outcomes"),
   ("impact", vstrs [
     "Visualized trends across 50,000+ patient records",
     "Identified cost optimization opportunities",
     "Created predictive models for patient readmission risk"]),
   ("technologies", vstrs ["Tableau", "Python", "SQL", "Statistical Analysis"]),
   ("details", .vStr "Comprehensive analysis of healthcare data including patient demographics, treatment patterns, and outcome metrics with interactive visualizations for healthcare administrators."),
   ("featured", .vBool true),
   ("display_order", .vInt 4)]]

/-- The hardcoded `visualizations_data` literal of `seed_data.py`
(lines 198-240). -/
def visualizations_data : List Doc := [
  [("title", .vStr "Claims Performance Dashboard"),
   ("description", .vStr "Interactive Power BI dashboard showing claims processing metrics and KPIs"),
   ("metrics", vstrs ["Average Settlement Time: 12 days", "Fraud Detection Rate: 94%", "Customer Satisfaction: 4.2/5"]),
   ("chart_type", .vStr "Multi-metric Dashboard"),
   ("chart_data", vdoc [
     ("claims_processed", .vInt 892),
     ("fraud_detected", .vInt 94),
     ("avg_settlement", .vInt 12),
     ("customer_satisfaction", .vFloat 42)]),
   ("is_active", .vBool true),
   ("display_order", .vInt 1)],
  [("title", .vStr "Risk Score Distribution Analysis"),
   ("description", .vStr "Statistical analysis of risk scoring model performance across different customer segments"),
   ("metrics", vstrs ["Model Accuracy: 89%", "Precision: 87%", "Recall: 91%"]),
   ("chart_type", .vStr "Performance Metrics"),
   ("chart_data", vdoc [
     ("accuracy", .vInt 89),
     ("precision", .vInt 87),
     ("recall", .vInt 91),
     ("risk_distribution", vdoc [("low", .vInt 65), ("medium", .vInt 28), ("high", .vInt 7)])]),
   ("is_active", .vBool true),
   ("display_order", .vInt 2)],
  [("title", .vStr "Customer Churn Prediction Analysis"),
   ("description", .vStr "Machine learning model results showing feature importance and prediction accuracy"),
   ("metrics", vstrs ["Churn Prediction Accuracy: 85%", "Top Risk Factor: Usage Decline", "Monthly Savings: $50K"]),
   ("chart_type", .vStr "ML Model Results"),
   ("chart_data", vdoc [
     ("churn_rate", .vFloat 152),
     ("monthly_savings", .vInt 48000),
     ("top_factors", vstrs ["Usage Decline", "Support Tickets", "Payment Delays", "Feature Adoption", "Login Frequency"])]),
   ("is_active", .vBool true),
   ("display_order", .vInt 3)]]

/-- One of the two `for ... in ...: await db_manager.create_*(...)` loops of
the seeder: insert each document in order (a falsy returned id is only
logged, never fatal).  `i` indexes the next `utcnow()` reading of the clock
`clk`; each insertion consumes two readings. -/
def seedEach (create : Store → Bool → Nat → Nat → Doc → Option String × Store)
    (fault : Bool) (clk : Nat → Nat) : Nat → Store → List Doc → Store
  | _, s, [] => s
  | i, s, d :: rest => seedEach create fault clk (i + 2) (create s fault (clk i) (clk (i + 1)) d).2 rest

/-- Seeder `seed_initial_data` (`seed_data.py` lines 6-252): skip when `get_profile`
returns a truthy document; otherwise create the profile (aborting if that
reports failure), then the projects, then the visualizations.  `clk` gives
the successive `utcnow()` readings. -/
def seed_initial_data (s : Store) (fault : Bool) (clk : Nat → Nat) : Store :=
  if pyTruthy (DatabaseManager.get_profile s fault) then s
  else
    let pr := DatabaseManager.create_or_update_profile s fault (clk 0) (clk 1) profile_data
    if pr.1 = false then pr.2
    else
      let s2 := seedEach DatabaseManager.create_project fault clk 2 pr.2 projects_data
      seedEach DatabaseManager.create_visualization fault clk (2 + 2 * projects_data.length) s2
        visualizations_data

end Seed

/-- The reduction applied to each recent visit document (the body of the
`async for` loop of `get_analytics_stats`), as a total function; it agrees
with `buildRecent` on documents that carry a `timestamp`. -/
def mkRecent (d : Doc) : RecentVisit :=
  ⟨(getKey d "page").getD (.vStr "/"), (getKey d "timestamp").getD .vNull,
   (getKey d "ip_address").getD (.vStr "unknown")⟩

/-- The time carried by a value, when it is a datetime. -/
def toTime : Value → Option Int
  | .vTime t => some (t : Int)
  | _ => none

/-- Descending-time order on reduced recent-visit entries. -/
def recentGe (a b : RecentVisit) : Prop := cmpKey (toTime b.timestamp) (toTime a.timestamp)

/-- Descending order on the visit counts of top-pages entries. -/
def topGe (a b : TopPage) : Prop := b.visits ≤ a.visits

/-- A store holding one project whose only data field `title` is `"a"` and
whose `updated_at` is the datetime `0` (used to exercise the modified-count
semantics of `update_project`). -/
def c2store : Store :=
  { profile := [], projects := [[("_id", .vId 0), ("title", .vStr "a"), ("updated_at", .vTime 0)]],
    contact_messages := [], analytics := [], visualizations := [], nextId := 1 }

/-- A store holding one profile created at datetime `0` (used to exercise
`created_at` preservation). -/
def c3store : Store :=
  { profile := [[("_id", .vId 0), ("created_at", .vTime 0)]], projects := [],
    contact_messages := [], analytics := [], visualizations := [], nextId := 1 }

/-- A store holding one "Professional Project" (used to exercise the
project-type filter). -/
def c8store : Store :=
  { profile := [],
    projects := [[("_id", .vId 0), ("type", .vStr "Professional Project"), ("display_order", .vInt 1)]],
    contact_messages := [], analytics := [], visualizations := [], nextId := 1 }

/- ### Helper lemmas about documents -/

theorem setKey_ne_nil (d : Doc) (k : String) (v : Value) : setKey d k v ≠ [] := by
  cases d with
  | nil => simp [setKey]
  | cons p rest =>
      unfold setKey
      by_cases h : p.1 = k <;> simp [h]

theorem getKey_setKey_self (d : Doc) (k : String) (v : Value) :
    getKey (setKey d k v) k = some v := by
  induction d with
  | nil => simp [setKey, getKey]
  | cons p rest ih =>
      unfold setKey
      by_cases h : p.1 = k
      · simp [h, getKey]
      · simp [h, getKey, ih]

theorem getKey_setKey_ne (d : Doc) {k k' : String} (v : Value) (h : k' ≠ k) :
    getKey (setKey d k v) k' = getKey d k' := by
  have hne : k ≠ k' := fun hkk => h hkk.symm
  induction d with
  | nil => simp [setKey, getKey, hne]
  | cons p rest ih =>
      unfold setKey
      by_cases hp : p.1 = k
      · subst hp
        simp [getKey, hne]
      · simp [hp, getKey, ih]

theorem getKey_eq_none_iff (d : Doc) (k : String) :
    getKey d k = none ↔ ∀ p ∈ d, p.1 ≠ k := by
  induction d with
  | nil => simp [getKey]
  | cons p rest ih =>
      unfold getKey
      by_cases hp : p.1 = k <;> simp [hp, ih]

theorem applySet_nil (d : Doc) : applySet d [] = d := rfl

theorem applySet_cons (d : Doc) (kv : String × Value) (patch : Doc) :
    applySet d (kv :: patch) = applySet (setKey d kv.1 kv.2) patch := rfl

theorem getKey_applySet_none (patch d : Doc) (k : String)
    (h : getKey patch k = none) : getKey (applySet d patch) k = getKey d k := by
  induction patch generalizing d with
  | nil => rfl
  | cons kv rest ih =>
      rw [applySet_cons]
      have hk : kv.1 ≠ k := by
        intro hkk
        rw [show getKey (kv :: rest) k = some kv.2 by simp [getKey, hkk]] at h
        exact Option.noConfusion h
      have hrest : getKey rest k = none := by
        rw [show getKey (kv :: rest) k = getKey rest k by simp [getKey, hk]] at h
        exact h
      rw [ih _ hrest, getKey_setKey_ne _ _ (fun hkk => hk hkk.symm)]

theorem keys_setKey_of_mem (d : Doc) (k : String) (v : Value)
    (h : getKey d k ≠ none) : (setKey d k v).map Prod.fst = d.map Prod.fst := by
  induction d with
  | nil => simp [getKey] at h
  | cons p rest ih =>
      unfold setKey
      by_cases hp : p.1 = k
      · simp [hp]
      · have : getKey rest k ≠ none := by
          rw [show getKey (p :: rest) k = getKey rest k by simp [getKey, hp]] at h
          exact h
        simp [hp, ih this]

theorem keys_setKey_of_not_mem (d : Doc) (k : String) (v : Value)
    (h : getKey d k = none) : (setKey d k v).map Prod.fst = d.map Prod.fst ++ [k] := by
  induction d with
  | nil => simp [setKey]
  | cons p rest ih =>
      unfold setKey
      have hp : p.1 ≠ k := by
        intro hkk
        rw [show getKey (p :: rest) k = some p.2 by simp [getKey, hkk]] at h
        exact Option.noConfusion h
      have hrest : getKey rest k = none := by
        rw [show getKey (p :: rest) k = getKey rest k by simp [getKey, hp]] at h
        exact h
      simp [hp, ih hrest]

theorem getKey_applySet_some (patch d : Doc) (k : String) (v : Value)
    (hnd : (patch.map Prod.fst).Nodup) (h : getKey patch k = some v) :
    getKey (applySet d patch) k = some v := by
  induction patch generalizing d with
  | nil => simp [getKey] at h
  | cons kv rest ih =>
      rw [applySet_cons]
      rw [List.map_cons, List.nodup_cons] at hnd
      by_cases hk : kv.1 = k
      · subst hk
        unfold getKey at h
        rw [if_pos rfl] at h
        have hv : kv.2 = v := Option.some.inj h
        subst hv
        have hrest : getKey rest kv.1 = none := by
          rw [getKey_eq_none_iff]
          intro p hp hpk
          exact hnd.1 (hpk ▸ List.mem_map_of_mem Prod.fst hp)
        rw [getKey_applySet_none _ _ _ hrest, getKey_setKey_self]
      · have hrest : getKey rest k = some v := by
          rw [show getKey (kv :: rest) k = getKey rest k by simp [getKey, hk]] at h
          exact h
        exact ih _ hnd.2 hrest

theorem getKey_sid_ne (d : Doc) {k : String} (h : k ≠ "_id") :
    getKey (sid d) k = getKey d k := by
  unfold sid
  cases hid : getKey d "_id" with
  | none => rfl
  | some v => exact getKey_setKey_ne _ _ h

theorem getKey_sid_id (d : Doc) {v : Value} (h : getKey d "_id" = some v) :
    getKey (sid d) "_id" = some (.vStr (pyStr v)) := by
  unfold sid
  rw [h]
  exact getKey_setKey_self _ _ _

theorem stringifyAll_eq_map (l : List Doc)
    (h : ∀ d ∈ l, (getKey d "_id").isSome) : stringifyAll l = some (l.map sid) := by
  induction l with
  | nil => rfl
  | cons d rest ih =>
      have hd : (getKey d "_id").isSome := h d (List.mem_cons_self d rest)
      cases hid : getKey d "_id" with
      | none => rw [hid] at hd; exact absurd hd (by simp)
      | some v =>
          unfold stringifyAll
          rw [hid, ih (fun x hx => h x (List.mem_cons_of_mem d hx))]
          simp [sid, hid]

theorem stringifyAll_some_eq (l : List Doc) (r : List Doc)
    (h : stringifyAll l = some r) : r = l.map sid := by
  induction l generalizing r with
  | nil =>
      unfold stringifyAll at h
      simp at h
      simp [h]
  | cons d rest ih =>
      unfold stringifyAll at h
      cases hid : getKey d "_id" with
      | none => rw [hid] at h; exact absurd h (by simp)
      | some v =>
          rw [hid] at h
          cases hr : stringifyAll rest with
          | none => rw [hr] at h; exact absurd h (by simp)
          | some r' =>
              rw [hr] at h
              simp at h
              subst h
              rw [ih r' hr]
              simp [sid, hid]

theorem dispKey_sid (d : Doc) : dispKey (sid d) = dispKey d := by
  unfold dispKey
  rw [getKey_sid_ne _ (by decide)]

theorem createdKey_sid (d : Doc) : createdKey (sid d) = createdKey d := by
  unfold createdKey
  rw [getKey_sid_ne _ (by decide)]

theorem buildRecent_eq_map (l : List Doc) (r : List RecentVisit)
    (h : buildRecent l = some r) : r = l.map mkRecent := by
  induction l generalizing r with
  | nil =>
      unfold buildRecent at h
      simp at h
      simp [h]
  | cons d rest ih =>
      unfold buildRecent at h
      cases hts : getKey d "timestamp" with
      | none => rw [hts] at h; exact absurd h (by simp)
      | some ts =>
          rw [hts] at h
          cases hr : buildRecent rest with
          | none => rw [hr] at h; exact absurd h (by simp)
          | some r' =>
              rw [hr] at h
              simp at h
              subst h
              rw [ih r' hr]
              simp [mkRecent, hts]

theorem toTime_mkRecent (d : Doc) : toTime (mkRecent d).timestamp = tsKey d := by
  unfold mkRecent tsKey
  cases h : getKey d "timestamp" with
  | none => simp [toTime]
  | some v => cases v <;> simp [toTime]

theorem updateFirst_head {p : Doc → Bool} {f : Doc → Doc} {e : Doc} (rest : List Doc)
    (h : p e = true) : updateFirst p f (e :: rest) = f e :: rest := by
  unfold updateFirst
  simp [h]

/- ### Lemmas about the seeder -/

theorem create_project_profile (s : Store) (f : Bool) (t1 t2 : Nat) (d : Doc) :
    ((DatabaseManager.create_project s f t1 t2 d).2).profile = s.profile := by
  cases f <;> rfl

theorem create_visualization_profile (s : Store) (f : Bool) (t1 t2 : Nat) (d : Doc) :
    ((DatabaseManager.create_visualization s f t1 t2 d).2).profile = s.profile := by
  cases f <;> rfl

theorem seedEach_profile (create : Store → Bool → Nat → Nat → Doc → Option String × Store)
    (hc : ∀ s f a b d, ((create s f a b d).2).profile = s.profile)
    (f : Bool) (clk : Nat → Nat) :
    ∀ (i : Nat) (s : Store) (l : List Doc), (Seed.seedEach create f clk i s l).profile = s.profile := by
  intro i s l
  induction l generalizing i s with
  | nil => rfl
  | cons d rest ih =>
      unfold Seed.seedEach
      rw [ih, hc]

theorem get_profile_truthy (s : Store) (p : Doc) (hhead : s.profile.head? = some p)
    (hne : p ≠ []) {v : Value} (hid : getKey p "_id" = some v) :
    pyTruthy (DatabaseManager.get_profile s false) = true := by
  unfold DatabaseManager.get_profile
  simp [hhead, hne, hid, pyTruthy, setKey_ne_nil]

theorem seed_noop (s : Store) (clk : Nat → Nat) (p : Doc)
    (hhead : s.profile.head? = some p) (hne : p ≠ []) {v : Value}
    (hid : getKey p "_id" = some v) :
    Seed.seed_initial_data s false clk = s := by
  unfold Seed.seed_initial_data
  rw [get_profile_truthy s p hhead hne hid]
  rfl

theorem seed_fresh (s : Store) (clk : Nat → Nat) (hempty : s.profile = []) :
    (Seed.seed_initial_data s false clk).profile =
      [setKey (setKey (setKey Seed.profile_data "updated_at" (.vTime (clk 0)))
        "created_at" (.vTime (clk 1))) "_id" (.vId s.nextId)] := by
  unfold Seed.seed_initial_data
  have h1 : pyTruthy (DatabaseManager.get_profile s false) = false := by
    unfold DatabaseManager.get_profile
    simp [hempty, pyTruthy]
  rw [h1]
  simp only [Bool.false_eq_true, if_false]
  unfold DatabaseManager.create_or_update_profile
  simp only [hempty, List.head?_nil, Bool.false_eq_true, if_false]
  unfold DatabaseManager.insertNewProfile
  rw [if_neg (by simp)]
  rw [seedEach_profile _ create_visualization_profile,
      seedEach_profile _ create_project_profile]
  simp [hempty]

/- ### Claim theorems -/

/-- C1: the specification (and the handlers' own explicit
`raise HTTPException(404, "Project not found")`) call for a 404 when a
`PUT /projects/{id}` or `DELETE /projects/{id}` modifies or deletes nothing,
but because that raise happens inside the `try` block whose
`except Exception` re-raises a 500, the actual HTTP response for an unknown
id is `500 "Internal server error"`, not a 404. -/
theorem unknown_project_update_delete_answers_500 :
    (DatabaseManager.update_project emptyStore false 5 99 [("title", .vStr "New title")]).1 = false ∧
    (Routes.update_project emptyStore false 5 99 [("title", .vStr "New title")]).1 =
      .httpError 500 "Internal server error" ∧
    (DatabaseManager.delete_project emptyStore false 99).1 = false ∧
    (Routes.delete_project emptyStore false 99).1 =
      .httpError 500 "Internal server error" := by
  decide

/-- C6: with a faulting store, every read of the gateway degrades to its
safe default instead of raising: `get_profile` yields `None`, the three list
reads yield `[]`, and `get_analytics_stats` yields the all-zero/empty
aggregate. -/
theorem reads_fail_open_on_fault (s : Store) (pt : Option String) :
    DatabaseManager.get_profile s true = none ∧
    DatabaseManager.get_projects s true pt = [] ∧
    DatabaseManager.get_contact_messages s true = [] ∧
    DatabaseManager.get_visualizations s true = [] ∧
    DatabaseManager.get_analytics_stats s true = emptyStats :=
  ⟨rfl, rfl, rfl, rfl, rfl⟩

/-- C5: on a store without a profile the seeder leaves exactly one profile
document and running it again is the identity (zero inserts); and on any
store that already holds a (well-formed, hence truthy and `_id`-carrying)
profile the seeder is a no-op, so it never overwrites existing data. -/
theorem seeder_idempotent (s : Store) (clk clk2 : Nat → Nat) :
    (s.profile = [] →
      (Seed.seed_initial_data s false clk).profile.length = 1 ∧
      Seed.seed_initial_data (Seed.seed_initial_data s false clk) false clk2 =
        Seed.seed_initial_data s false clk) ∧
    (∀ p, s.profile.head? = some p → p ≠ [] → getKey p "_id" ≠ none →
      Seed.seed_initial_data s false clk = s) := by
  constructor
  · intro hempty
    have hfresh := seed_fresh s clk hempty
    constructor
    · rw [hfresh]
      rfl
    · apply seed_noop _ _ _ (by rw [hfresh]; rfl) (setKey_ne_nil _ _ _)
        (getKey_setKey_self _ _ _)
  · intro p hhead hne hid
    cases hv : getKey p "_id" with
    | none => exact absurd hv hid
    | some v => exact seed_noop s clk p hhead hne hv

/-- Witness for the seeder theorem at the fresh empty store. -/
theorem seeder_idempotent_witness :
    emptyStore.profile = [] ∧
    ((Seed.seed_initial_data emptyStore false (fun n => n)).profile.length = 1 ∧
      Seed.seed_initial_data (Seed.seed_initial_data emptyStore false (fun n => n)) false
          (fun n => n + 20) =
        Seed.seed_initial_data emptyStore false (fun n => n)) :=
  ⟨rfl, (seeder_idempotent emptyStore (fun n => n) (fun n => n + 20)).1 rfl⟩

/-- C2 counterexample: an update whose supplied data (`title = "a"`) is
identical to the project's current state nevertheless returns true, because
the gateway stamps a fresh `updated_at` (here the datetime `1`, differing
from the stored `0`) into the `$set`, so the document is modified. -/
theorem update_identical_data_still_modifies :
    (DatabaseManager.update_project c2store false 1 0 [("title", .vStr "a")]).1 = true := by
  decide

/-- C2 amended: `updateProject` returns true iff the targeted document
exists and the `$set` of the supplied fields together with the freshly
stamped `updated_at` actually changes it; an unknown id therefore yields
false, but identical supplied data yields false only when the fresh
timestamp also coincides with the stored one. -/
theorem update_project_modified_iff (s : Store) (t : Nat) (pid : Nat) (pd : Doc) :
    (DatabaseManager.update_project s false t pid pd).1 = true ↔
      ∃ doc, s.projects.find? (fun d => decide (getKey d "_id" = some (.vId pid))) = some doc ∧
        applySet doc (setKey pd "updated_at" (.vTime t)) ≠ doc := by
  unfold DatabaseManager.update_project
  simp only [Bool.false_eq_true, if_false]
  cases hf : s.projects.find? (fun d => decide (getKey d "_id" = some (.vId pid))) with
  | none => simp [hf]
  | some doc => simp [hf]

/-- C3 counterexample: the `PUT /profile` handler passes the full `Profile`
dump — which always contains a `created_at` field — to the gateway, whose
`$set` then overwrites the stored `created_at` (here from datetime `0` to
datetime `5`), so an update does change `created_at`. -/
theorem profile_update_overwrites_created_at :
    ((Routes.update_profile c3store false 7 8 [("created_at", .vTime 5)]).2.profile.map
      (fun d => getKey d "created_at")) = [some (.vTime 5)] ∧
    (some (Value.vTime 5) : Option Value) ≠ some (.vTime 0) := by
  decide

/-- C3 amended: provided the supplied update data does not itself contain a
`created_at` field (the gateway itself stamps `created_at` only on first
insert), updating an existing profile leaves its `created_at` unchanged and
sets `updated_at` to the clock reading of the write.  The `dict`-shaped
input has pairwise-distinct keys. -/
theorem profile_update_preserves_created_at (s : Store) (existing pd : Doc) (t1 t2 : Nat)
    (hhead : s.profile.head? = some existing) (hne : existing ≠ [])
    (hnocreated : getKey pd "created_at" = none)
    (hnodup : (pd.map Prod.fst).Nodup) :
    ∃ s', DatabaseManager.create_or_update_profile s false t1 t2 pd = (true, s') ∧
      s'.profile.head? = some (applySet existing (setKey pd "updated_at" (.vTime t1))) ∧
      getKey (applySet existing (setKey pd "updated_at" (.vTime t1))) "created_at" =
        getKey existing "created_at" ∧
      getKey (applySet existing (setKey pd "updated_at" (.vTime t1))) "updated_at" =
        some (.vTime t1) := by
  obtain ⟨tail, hsp⟩ : ∃ tail, s.profile = existing :: tail := by
    cases hsl : s.profile with
    | nil => rw [hsl] at hhead; exact absurd hhead (by simp)
    | cons a tail =>
        rw [hsl] at hhead
        simp at hhead
        exact ⟨tail, by rw [hhead]⟩
  have hpatch_created : getKey (setKey pd "updated_at" (.vTime t1)) "created_at" = none := by
    rw [getKey_setKey_ne _ _ (by decide), hnocreated]
  have hpatch_nodup : ((setKey pd "updated_at" (.vTime t1)).map Prod.fst).Nodup := by
    cases hup : getKey pd "updated_at" with
    | none =>
        rw [keys_setKey_of_not_mem _ _ _ hup]
        have hnotin : "updated_at" ∉ pd.map Prod.fst := by
          rw [getKey_eq_none_iff] at hup
          intro hmem
          obtain ⟨p, hp, hp1⟩ := List.mem_map.mp hmem
          exact hup p hp hp1
        simp [List.nodup_append, hnodup, hnotin]
    | some v => rw [keys_setKey_of_mem _ _ _ (by rw [hup]; simp)]; exact hnodup
  have heq : DatabaseManager.create_or_update_profile s false t1 t2 pd =
      (true, { s with profile := applySet existing (setKey pd "updated_at" (.vTime t1)) :: tail }) := by
    unfold DatabaseManager.create_or_update_profile
    rw [if_neg (by simp), hsp]
    simp only [List.head?_cons]
    rw [if_neg hne, updateFirst_head _ (by simp)]
  exact ⟨_, heq, rfl, getKey_applySet_none _ _ _ hpatch_created,
    getKey_applySet_some _ _ _ _ hpatch_nodup (getKey_setKey_self _ _ _)⟩

/-- Witness for the amended C3 theorem: a concrete update without a
`created_at` field preserves the stored `created_at`. -/
theorem profile_update_preserves_created_at_witness :
    c3store.profile.head? = some [("_id", .vId 0), ("created_at", .vTime 0)] ∧
    ([("_id", .vId 0), ("created_at", .vTime 0)] : Doc) ≠ [] ∧
    getKey [("personal", .vNull)] "created_at" = none ∧
    (([("personal", .vNull)] : Doc).map Prod.fst).Nodup ∧
    (∃ s', DatabaseManager.create_or_update_profile c3store false 7 8 [("personal", .vNull)] =
        (true, s') ∧
      s'.profile.head? =
        some (applySet [("_id", .vId 0), ("created_at", .vTime 0)]
          (setKey [("personal", .vNull)] "updated_at" (.vTime 7))) ∧
      getKey (applySet [("_id", .vId 0), ("created_at", .vTime 0)]
          (setKey [("personal", .vNull)] "updated_at" (.vTime 7))) "created_at" =
        getKey [("_id", .vId 0), ("created_at", .vTime 0)] "created_at" ∧
      getKey (applySet [("_id", .vId 0), ("created_at", .vTime 0)]
          (setKey [("personal", .vNull)] "updated_at" (.vTime 7))) "updated_at" =
        some (.vTime 7)) :=
  ⟨rfl, by decide, rfl, by decide,
   profile_update_preserves_created_at c3store _ _ 7 8 rfl (by decide) rfl (by decide)⟩

/-- C4 counterexample: on a first insert the code reads the clock twice
(`updated_at` on line 32, `created_at` on line 43, with a store round-trip
in between); when the readings differ — datetimes `0` then `1` here — the
inserted document has `created_at ≠ updated_at`. -/
theorem first_insert_created_ne_updated :
    ((DatabaseManager.create_or_update_profile emptyStore false 0 1 []).2.profile.map
      (fun d => (getKey d "created_at", getKey d "updated_at"))) =
      [(some (.vTime 1), some (.vTime 0))] ∧
    (some (Value.vTime 1) : Option Value) ≠ some (.vTime 0) := by
  decide

/-- C4 amended: when no profile exists, the inserted document carries
`updated_at` equal to the operation's first clock reading and `created_at`
equal to its second; the two fields are equal exactly when those readings
coincide (the source calls `utcnow()` separately for each). -/
theorem first_insert_timestamps (s : Store) (pd : Doc) (t1 t2 : Nat)
    (hempty : s.profile = []) :
    ∃ d, (DatabaseManager.create_or_update_profile s false t1 t2 pd).2.profile = [d] ∧
      getKey d "updated_at" = some (.vTime t1) ∧
      getKey d "created_at" = some (.vTime t2) ∧
      (t1 = t2 → getKey d "created_at" = getKey d "updated_at") := by
  refine ⟨setKey (setKey (setKey pd "updated_at" (.vTime t1)) "created_at" (.vTime t2))
    "_id" (.vId s.nextId), ?_, ?_, ?_, ?_⟩
  · unfold DatabaseManager.create_or_update_profile DatabaseManager.insertNewProfile
    simp only [Bool.false_eq_true, if_false, hempty, List.head?_nil]
    simp [hempty]
  · rw [getKey_setKey_ne _ _ (by decide), getKey_setKey_ne _ _ (by decide),
        getKey_setKey_self]
  · rw [getKey_setKey_ne _ _ (by decide), getKey_setKey_self]
  · intro heq
    subst heq
    rw [getKey_setKey_ne _ _ (by decide), getKey_setKey_self,
        getKey_setKey_ne _ _ (by decide), getKey_setKey_ne _ _ (by decide),
        getKey_setKey_self]

/-- Witness for the amended C4 theorem at the empty store with coinciding
clock readings. -/
theorem first_insert_timestamps_witness :
    emptyStore.profile = [] ∧
    (∃ d, (DatabaseManager.create_or_update_profile emptyStore false 3 3 []).2.profile = [d] ∧
      getKey d "updated_at" = some (.vTime 3) ∧
      getKey d "created_at" = some (.vTime 3) ∧
      (3 = 3 → getKey d "created_at" = getKey d "updated_at")) :=
  ⟨rfl, first_insert_timestamps emptyStore [] 3 3 rfl⟩

/-- C8 counterexample: for the supplied (but empty-string) type filter the
result contains a project whose `type` is `"Professional Project"`, not the
filter value `""` — the falsy guard drops the filter entirely. -/
theorem empty_string_filter_not_exact :
    DatabaseManager.get_projects c8store false (some "") =
      [[("_id", .vStr "0"), ("type", .vStr "Professional Project"), ("display_order", .vInt 1)]] ∧
    getKey [("_id", .vStr "0"), ("type", .vStr "Professional Project"), ("display_order", .vInt 1)]
      "type" ≠ some (.vStr "") := by
  decide

/-- C8 amended: for every supplied non-empty type filter, `get_projects`
returns only projects whose `type` exactly equals the filter, the result is
sorted non-decreasing by `display_order`, and having no matching project
yields the empty list rather than a fault (an empty-string filter is instead
treated as absent). -/
theorem get_projects_filter_sorted (s : Store) (ty : String) (hty : ty ≠ "") :
    (∀ d ∈ DatabaseManager.get_projects s false (some ty),
      getKey d "type" = some (.vStr ty)) ∧
    List.Sorted dispLe (DatabaseManager.get_projects s false (some ty)) ∧
    ((∀ d ∈ s.projects, getKey d "type" ≠ some (.vStr ty)) →
      DatabaseManager.get_projects s false (some ty) = []) := by
  have hquery : DatabaseManager.projectQuery (some ty) = [("type", .vStr ty)] := by
    simp [DatabaseManager.projectQuery, hty]
  have hfq : s.projects.filter (DatabaseManager.matchesQuery (DatabaseManager.projectQuery (some ty))) =
      s.projects.filter (fun d => decide (getKey d "type" = some (.vStr ty))) := by
    rw [hquery]
    apply List.filter_congr
    intro d _
    unfold DatabaseManager.matchesQuery
    simp [List.all]
  have hbody : DatabaseManager.get_projects s false (some ty) =
      (match stringifyAll (List.insertionSort dispLe
          (s.projects.filter (fun d => decide (getKey d "type" = some (.vStr ty))))) with
       | some r => r
       | none => []) := by
    unfold DatabaseManager.get_projects
    rw [if_neg (by simp), hfq]
  rw [hbody]
  cases hsa : stringifyAll (List.insertionSort dispLe
      (s.projects.filter (fun d => decide (getKey d "type" = some (.vStr ty))))) with
  | none =>
      refine ⟨by simp, by simp [List.Sorted], fun _ => rfl⟩
  | some r =>
      have hr := stringifyAll_some_eq _ _ hsa
      subst hr
      refine ⟨?_, ?_, ?_⟩
      · intro d hd
        obtain ⟨d', hd', rfl⟩ := List.mem_map.mp hd
        have hmem : d' ∈ s.projects.filter (fun d => decide (getKey d "type" = some (.vStr ty))) :=
          (List.perm_insertionSort dispLe _).mem_iff.mp hd'
        have htype := of_decide_eq_true (List.mem_filter.mp hmem).2
        rw [getKey_sid_ne _ (by decide)]
        exact htype
      · have hsorted : List.Sorted dispLe (List.insertionSort dispLe
            (s.projects.filter (fun d => decide (getKey d "type" = some (.vStr ty))))) :=
          List.sorted_insertionSort dispLe _
        rw [List.Sorted, List.pairwise_map]
        exact hsorted.imp (fun h => by unfold dispLe; rwa [dispKey_sid, dispKey_sid])
      · intro hnone
        have hfil : s.projects.filter (fun d => decide (getKey d "type" = some (.vStr ty))) = [] := by
          rw [List.filter_eq_nil_iff]
          intro d hd
          simp only [decide_eq_true_eq]
          exact hnone d hd
        rw [hfil]
        rfl

/-- Witness for the amended C8 theorem at a store holding one professional
project and the filter "Professional Project". -/
theorem get_projects_filter_sorted_witness :
    ("Professional Project" ≠ "") ∧
    ((∀ d ∈ DatabaseManager.get_projects c8store false (some "Professional Project"),
      getKey d "type" = some (.vStr "Professional Project")) ∧
    List.Sorted dispLe (DatabaseManager.get_projects c8store false (some "Professional Project")) ∧
    ((∀ d ∈ c8store.projects, getKey d "type" ≠ some (.vStr "Professional Project")) →
      DatabaseManager.get_projects c8store false (some "Professional Project") = [])) :=
  ⟨by decide, get_projects_filter_sorted c8store "Professional Project" (by decide)⟩

/-- C10: an empty-string type filter is falsy in the `if project_type:`
guard, so the query stays empty: the call behaves exactly like the
unfiltered call, and (absent faults, on an `_id`-carrying store) returns a
permutation of all projects rather than only those typed `""`. -/
theorem empty_string_filter_ignored (s : Store) (fault : Bool)
    (hwf : ∀ d ∈ s.projects, (getKey d "_id").isSome) :
    DatabaseManager.get_projects s fault (some "") = DatabaseManager.get_projects s fault none ∧
    (fault = false →
      (DatabaseManager.get_projects s fault (some "")).Perm (s.projects.map sid)) := by
  constructor
  · rfl
  · intro hfault
    subst hfault
    have hfil : s.projects.filter (DatabaseManager.matchesQuery (DatabaseManager.projectQuery (some ""))) = s.projects := by
      have : DatabaseManager.projectQuery (some "") = [] := rfl
      rw [this]
      exact List.filter_true s.projects
    have hall : ∀ d ∈ List.insertionSort dispLe s.projects, (getKey d "_id").isSome := by
      intro d hd
      exact hwf d ((List.perm_insertionSort dispLe _).mem_iff.mp hd)
    have hsa := stringifyAll_eq_map _ hall
    unfold DatabaseManager.get_projects
    rw [if_neg (by simp), hfil, hsa]
    exact ((List.perm_insertionSort dispLe s.projects).map sid)

/-- Witness for the C10 theorem at the one-project store. -/
theorem empty_string_filter_ignored_witness :
    (∀ d ∈ c8store.projects, (getKey d "_id").isSome) ∧
    (DatabaseManager.get_projects c8store false (some "") =
      DatabaseManager.get_projects c8store false none ∧
    (false = false →
      (DatabaseManager.get_projects c8store false (some "")).Perm (c8store.projects.map sid))) :=
  ⟨by decide, empty_string_filter_ignored c8store false (by decide)⟩

theorem create_analytics_event_contacts (s : Store) (f : Bool) (t : Nat) (d : Doc) :
    ((DatabaseManager.create_analytics_event s f t d).2).contact_messages =
      s.contact_messages := by
  cases f <;> rfl

/-- C9: `POST /contact` stores the message with `is_read` forced to false
(whatever the input carried) and `created_at` stamped with the write's clock
reading, answers success with the new message id, and a subsequent
`GET /contact` lists a document with that id and `is_read = false`. -/
theorem contact_message_forced_unread (s : Store) (t1 t2 : Nat) (contact : Doc)
    (ip ua : String)
    (hwf : ∀ d ∈ s.contact_messages, (getKey d "_id").isSome) :
    ∃ body stored,
      (Routes.submit_contact_form s false false t1 t2 contact ip ua).1 = .ok body ∧
      body.success = true ∧
      body.data = some (vdoc [("message_id", .vStr (oidStr s.nextId))]) ∧
      (Routes.submit_contact_form s false false t1 t2 contact ip ua).2.contact_messages =
        s.contact_messages ++ [stored] ∧
      getKey stored "is_read" = some (.vBool false) ∧
      getKey stored "created_at" = some (.vTime t1) ∧
      ∃ outd ∈ Routes.get_contact_messages
          (Routes.submit_contact_form s false false t1 t2 contact ip ua).2 false,
        getKey outd "_id" = some (.vStr (oidStr s.nextId)) ∧
        getKey outd "is_read" = some (.vBool false) := by
  refine ⟨⟨true, "Message sent successfully! I\x27ll get back to you within 24 hours.",
      some (vdoc [("message_id", .vStr (oidStr s.nextId))])⟩,
    setKey (setKey (setKey (setKey (setKey contact "ip_address" (.vStr ip))
      "user_agent" (.vStr ua)) "created_at" (.vTime t1)) "is_read" (.vBool false))
      "_id" (.vId s.nextId),
    rfl, rfl, rfl, rfl, ?_, ?_, ?_⟩
  · rw [getKey_setKey_ne _ _ (by decide), getKey_setKey_self]
  · rw [getKey_setKey_ne _ _ (by decide), getKey_setKey_ne _ _ (by decide), getKey_setKey_self]
  · have hstored_id : getKey (setKey (setKey (setKey (setKey (setKey contact "ip_address" (.vStr ip))
        "user_agent" (.vStr ua)) "created_at" (.vTime t1)) "is_read" (.vBool false))
        "_id" (.vId s.nextId)) "_id" = some (.vId s.nextId) := getKey_setKey_self _ _ _
    have hmsgs : (Routes.submit_contact_form s false false t1 t2 contact ip ua).2.contact_messages =
        s.contact_messages ++ [setKey (setKey (setKey (setKey (setKey contact "ip_address" (.vStr ip))
          "user_agent" (.vStr ua)) "created_at" (.vTime t1)) "is_read" (.vBool false))
          "_id" (.vId s.nextId)] := rfl
    have hall : ∀ d ∈ List.insertionSort createdGe
        ((Routes.submit_contact_form s false false t1 t2 contact ip ua).2.contact_messages),
        (getKey d "_id").isSome := by
      intro d hd
      have hd2 := (List.perm_insertionSort createdGe _).mem_iff.mp hd
      rw [hmsgs] at hd2
      rcases List.mem_append.mp hd2 with h | h
      · exact hwf d h
      · rw [List.mem_singleton.mp h, hstored_id]
        rfl
    have hsa := stringifyAll_eq_map _ hall
    unfold Routes.get_contact_messages DatabaseManager.get_contact_messages
    rw [if_neg (by simp), hsa]
    refine ⟨sid (setKey (setKey (setKey (setKey (setKey contact "ip_address" (.vStr ip))
        "user_agent" (.vStr ua)) "created_at" (.vTime t1)) "is_read" (.vBool false))
        "_id" (.vId s.nextId)), List.mem_map_of_mem sid ?_, ?_, ?_⟩
    · apply (List.perm_insertionSort createdGe _).mem_iff.mpr
      rw [hmsgs]
      exact List.mem_append_right _ (List.mem_singleton_self _)
    · rw [getKey_sid_id _ hstored_id]
      rfl
    · rw [getKey_sid_ne _ (by decide), getKey_setKey_ne _ _ (by decide), getKey_setKey_self]

/-- Witness for the C9 theorem: a fresh store and an input that even claims
`is_read = true`; the stored message still has `is_read = false`. -/
theorem contact_message_forced_unread_witness :
    (∀ d ∈ emptyStore.contact_messages, (getKey d "_id").isSome) ∧
    (∃ body stored,
      (Routes.submit_contact_form emptyStore false false 1 2
        [("name", .vStr "John Doe"), ("is_read", .vBool true)] "1.2.3.4" "agent").1 = .ok body ∧
      body.success = true ∧
      body.data = some (vdoc [("message_id", .vStr (oidStr emptyStore.nextId))]) ∧
      (Routes.submit_contact_form emptyStore false false 1 2
        [("name", .vStr "John Doe"), ("is_read", .vBool true)] "1.2.3.4" "agent").2.contact_messages =
        emptyStore.contact_messages ++ [stored] ∧
      getKey stored "is_read" = some (.vBool false) ∧
      getKey stored "created_at" = some (.vTime 1) ∧
      ∃ outd ∈ Routes.get_contact_messages
          (Routes.submit_contact_form emptyStore false false 1 2
            [("name", .vStr "John Doe"), ("is_read", .vBool true)] "1.2.3.4" "agent").2 false,
        getKey outd "_id" = some (.vStr (oidStr emptyStore.nextId)) ∧
        getKey outd "is_read" = some (.vBool false)) :=
  ⟨by simp [emptyStore], contact_message_forced_unread emptyStore 1 2
    [("name", .vStr "John Doe"), ("is_read", .vBool true)] "1.2.3.4" "agent" (by simp [emptyStore])⟩

theorem analytics_stats_empty_props (s : Store) (fault : Bool)
    (h : DatabaseManager.get_analytics_stats s fault = emptyStats) :
    ∃ chosen rest : List Doc,
      (DatabaseManager.get_analytics_stats s fault).recent_visits = chosen.map mkRecent ∧
      chosen.length ≤ 10 ∧
      (visitsOf s).Perm (chosen ++ rest) ∧
      List.Pairwise tsGe chosen ∧
      (∀ c ∈ chosen, ∀ r ∈ rest, cmpKey (tsKey r) (tsKey c)) ∧
      List.Pairwise recentGe (DatabaseManager.get_analytics_stats s fault).recent_visits ∧
      (DatabaseManager.get_analytics_stats s fault).top_pages.length ≤ 5 ∧
      List.Pairwise topGe (DatabaseManager.get_analytics_stats s fault).top_pages ∧
      ∃ ks : List Value, ks.Nodup ∧
        (DatabaseManager.get_analytics_stats s fault).top_pages =
          ks.map (fun k => TopPage.mk (pyOr k (.vStr "/")) (countPage (visitsOf s) k)) ∧
        (∀ k ∈ ks, k ∈ (visitsOf s).map pageKey) ∧
        ∃ restKeys : List Value,
          (((visitsOf s).map pageKey).dedup).Perm (ks ++ restKeys) ∧
          ∀ k ∈ ks, ∀ k2 ∈ restKeys,
            countPage (visitsOf s) k2 ≤ countPage (visitsOf s) k := by
  rw [h]
  simp only [emptyStats]
  refine ⟨[], visitsOf s, rfl, by decide, ?_, List.Pairwise.nil, by simp,
    List.Pairwise.nil, by decide, List.Pairwise.nil, [], List.nodup_nil, rfl, by simp,
    ((visitsOf s).map pageKey).dedup, ?_, by simp⟩
  · rw [List.nil_append]
  · rw [List.nil_append]

/-- C7: the analytics aggregate lists at most the 10 most recent visit
events (`chosen`, a maximal-by-timestamp part of the visit documents) in
descending time order, each reduced to page / timestamp / IP with missing
page defaulting to "/" and missing IP to "unknown" (`mkRecent`); and at
most the top 5 distinct page keys by visit count — `ks` together with the
omitted `restKeys` exhausts the distinct page keys, and every omitted key's
count is at most every listed key's count — in descending count order, each
falsy (null or empty) page value normalized to "/". -/
theorem analytics_stats_recent_and_top (s : Store) (fault : Bool) :
    ∃ chosen rest : List Doc,
      (DatabaseManager.get_analytics_stats s fault).recent_visits = chosen.map mkRecent ∧
      chosen.length ≤ 10 ∧
      (visitsOf s).Perm (chosen ++ rest) ∧
      List.Pairwise tsGe chosen ∧
      (∀ c ∈ chosen, ∀ r ∈ rest, cmpKey (tsKey r) (tsKey c)) ∧
      List.Pairwise recentGe (DatabaseManager.get_analytics_stats s fault).recent_visits ∧
      (DatabaseManager.get_analytics_stats s fault).top_pages.length ≤ 5 ∧
      List.Pairwise topGe (DatabaseManager.get_analytics_stats s fault).top_pages ∧
      ∃ ks : List Value, ks.Nodup ∧
        (DatabaseManager.get_analytics_stats s fault).top_pages =
          ks.map (fun k => TopPage.mk (pyOr k (.vStr "/")) (countPage (visitsOf s) k)) ∧
        (∀ k ∈ ks, k ∈ (visitsOf s).map pageKey) ∧
        ∃ restKeys : List Value,
          (((visitsOf s).map pageKey).dedup).Perm (ks ++ restKeys) ∧
          ∀ k ∈ ks, ∀ k2 ∈ restKeys,
            countPage (visitsOf s) k2 ≤ countPage (visitsOf s) k := by
  cases fault with
  | true => exact analytics_stats_empty_props s true rfl
  | false =>
      cases hbr : buildRecent ((List.insertionSort tsGe (visitsOf s)).take 10) with
      | none =>
          apply analytics_stats_empty_props s false
          unfold DatabaseManager.get_analytics_stats
          rw [if_neg (by simp), hbr]
      | some recent =>
          have hrec : recent = ((List.insertionSort tsGe (visitsOf s)).take 10).map mkRecent :=
            buildRecent_eq_map _ _ hbr
          have hstats : DatabaseManager.get_analytics_stats s false =
              { total_visits := (visitsOf s).length,
                total_downloads := (downloadsOf s).length,
                total_contacts := s.contact_messages.length,
                recent_visits := recent,
                top_pages := ((List.insertionSort cntGe (pageGroups (visitsOf s))).take 5).map
                  (fun g => TopPage.mk (pyOr g.1 (.vStr "/")) g.2) } := by
            unfold DatabaseManager.get_analytics_stats
            rw [if_neg (by simp), hbr]
          have hkeys : (pageGroups (visitsOf s)).map Prod.fst = ((visitsOf s).map pageKey).dedup := by
            unfold pageGroups
            rw [List.map_map]
            have hcomp : (Prod.fst ∘ fun k : Value => (k, countPage (visitsOf s) k)) = id := rfl
            rw [hcomp, List.map_id]
          have hgroups_mem : ∀ p ∈ List.insertionSort cntGe (pageGroups (visitsOf s)),
              p.2 = countPage (visitsOf s) p.1 ∧ p.1 ∈ ((visitsOf s).map pageKey).dedup := by
            intro p hp2
            have hp3 : p ∈ pageGroups (visitsOf s) :=
              (List.perm_insertionSort cntGe _).mem_iff.mp hp2
            unfold pageGroups at hp3
            obtain ⟨k, hk, rfl⟩ := List.mem_map.mp hp3
            exact ⟨rfl, hk⟩
          refine ⟨(List.insertionSort tsGe (visitsOf s)).take 10,
            (List.insertionSort tsGe (visitsOf s)).drop 10,
            ?_, ?_, ?_, ?_, ?_, ?_, ?_, ?_, ?_⟩
          · rw [hstats]
            exact hrec
          · simp [List.length_take]
          · rw [List.take_append_drop]
            exact (List.perm_insertionSort tsGe (visitsOf s)).symm
          · exact (List.sorted_insertionSort tsGe (visitsOf s)).sublist (List.take_sublist _ _)
          · have hsorted := List.sorted_insertionSort tsGe (visitsOf s)
            rw [← List.take_append_drop 10 (List.insertionSort tsGe (visitsOf s))] at hsorted
            exact (List.pairwise_append.mp hsorted).2.2
          · rw [hstats]
            rw [hrec, List.pairwise_map]
            refine ((List.sorted_insertionSort tsGe (visitsOf s)).sublist
              (List.take_sublist _ _)).imp ?_
            intro a b h
            unfold recentGe
            rw [toTime_mkRecent, toTime_mkRecent]
            exact h
          · rw [hstats]
            simp [List.length_take]
          · rw [hstats]
            rw [List.pairwise_map]
            exact ((List.sorted_insertionSort cntGe (pageGroups (visitsOf s))).sublist
              (List.take_sublist _ _)).imp (fun h => h)
          · refine ⟨((List.insertionSort cntGe (pageGroups (visitsOf s))).take 5).map Prod.fst,
              ?_, ?_, ?_, ?_⟩
            · have hnodg : ((pageGroups (visitsOf s)).map Prod.fst).Nodup := by
                rw [hkeys]
                exact List.nodup_dedup _
              have hnods : ((List.insertionSort cntGe (pageGroups (visitsOf s))).map Prod.fst).Nodup :=
                ((List.perm_insertionSort cntGe _).map Prod.fst).nodup_iff.mpr hnodg
              exact hnods.sublist ((List.take_sublist _ _).map Prod.fst)
            · rw [hstats]
              rw [List.map_map]
              apply List.map_congr_left
              intro p hp
              have := (hgroups_mem p ((List.take_sublist _ _).subset hp)).1
              simp [Function.comp, this]
            · intro k hk
              obtain ⟨p, hp, rfl⟩ := List.mem_map.mp hk
              exact List.mem_dedup.mp (hgroups_mem p ((List.take_sublist _ _).subset hp)).2
            · refine ⟨((List.insertionSort cntGe (pageGroups (visitsOf s))).drop 5).map Prod.fst,
                ?_, ?_⟩
              · rw [← List.map_append, List.take_append_drop, ← hkeys]
                exact ((List.perm_insertionSort cntGe _).symm).map Prod.fst
              · intro k hk k2 hk2
                obtain ⟨g, hg, rfl⟩ := List.mem_map.mp hk
                obtain ⟨q, hq, rfl⟩ := List.mem_map.mp hk2
                have hsortedG := List.sorted_insertionSort cntGe (pageGroups (visitsOf s))
                rw [← List.take_append_drop 5
                  (List.insertionSort cntGe (pageGroups (visitsOf s)))] at hsortedG
                have hb := (List.pairwise_append.mp hsortedG).2.2 g hg q hq
                have hgc := (hgroups_mem g ((List.take_sublist _ _).subset hg)).1
                have hqc := (hgroups_mem q ((List.drop_sublist _ _).subset hq)).1
                rw [← hgc, ← hqc]
                exact hb

end PortfolioApi
